import Mathlib

/-!
Verification development for the openclaw-dashboard discovery-and-broadcast
core. The serialized discovery response shape is embedded from the frontend
TypeScript declarations (src/frontend/src/api/types.ts, endpoints.ts and the
fetch client); the backend discovery engine, cache, scheduler and channel
manager are not part of the shipped sources, so they are modelled from the
specification, as marked on each definition.
-/

/-! ## Serialized discovery response shape (from src/frontend/src/api/types.ts) -/

/-- Top-level field names of the `DiscoveryResult` interface in
src/frontend/src/api/types.ts, in declaration order. -/
def discoveryResultFields : List String :=
  ["detected_at", "workspace", "pipelines", "agents", "skills",
   "custom_modules", "metrics"]

/-- Field names of the `Pipeline` interface in src/frontend/src/api/types.ts. -/
def pipelineInterfaceFields : List String :=
  ["id", "name", "icon", "color", "directory", "path", "stages", "metrics",
   "status", "source"]

/-- Field names of the `Agent` interface in src/frontend/src/api/types.ts. -/
def agentInterfaceFields : List String :=
  ["name", "type", "icon", "color", "config_path", "capabilities", "source",
   "status"]

/-- Field names of the `SkillInfo` interface in src/frontend/src/api/types.ts
(`readme` is the optional lazily loaded full README text). -/
def skillInterfaceFields : List String :=
  ["name", "path", "category", "has_readme", "description", "readme"]

/-- Field names of the inline custom-module record type in the
`DiscoveryResult` interface in src/frontend/src/api/types.ts. -/
def customModuleInterfaceFields : List String :=
  ["name", "path", "type", "status"]

/-- Modelled from the spec: section 3 names the `WorkspaceSnapshot` fields
`detected_at` and `workspace_root` and the four ordered record sequences plus
the summary-metrics mapping. -/
def specSnapshotFields : List String :=
  ["detected_at", "workspace_root", "pipelines", "agents", "skills",
   "custom_modules", "metrics"]

/-- Modelled from the spec: section 3 `PipelineRecord` — identity is the
directory path; attributes are display name, icon/color hints, detected stage
names, detected metric names, activity status and detection source. -/
def specPipelineFields : List String :=
  ["path", "name", "icon", "color", "stages", "metrics", "status", "source"]

/-- Modelled from the spec: section 3 `AgentRecord` — identity is the config
file path; attributes are name, agent-type classification, capability list,
status and source. -/
def specAgentFields : List String :=
  ["config_path", "name", "type", "capabilities", "status", "source"]

/-- Modelled from the spec: section 3 `SkillRecord` — identity is the
directory name under the skills root; attributes are category, whether a
README exists, short description and optional full README text. -/
def specSkillFields : List String :=
  ["name", "category", "has_readme", "description", "readme"]

/-- Modelled from the spec: section 3 `CustomModuleRecord` — identity is the
module name; attributes are type and status. -/
def specCustomModuleFields : List String :=
  ["name", "type", "status"]

/-- Renaming applied by the implementation to the spec's top-level snapshot
field names: the workspace-root path is serialized as `workspace`. -/
def renameWorkspaceRoot (f : String) : String :=
  if f = "workspace_root" then "workspace" else f

/-! ## PatternClassifier (modelled from the spec, sections 4.2 and 9) -/

/-- Modelled from the spec: a filesystem observation — path, directory/file
kind, optional mtime, sibling file names, the well-known signature files
present in the directory, and whether the entry lies under the skills root. -/
structure Observation where
  path : String
  name : String
  kind : Bool
  mtime : Option Nat
  siblings : List String
  files : List String
  underSkillsRoot : Bool
deriving DecidableEq

/-- A directory observation (`kind = true` means directory). -/
def Observation.isDir (o : Observation) : Bool := o.kind

/-- Modelled from the spec: the five classification outcomes of section 4.2. -/
inductive Classification where
  | pipelineOf (kind : String)
  | agentOf (ty : String)
  | skillOf (category : String)
  | customModuleOf (ty : String)
  | unrecognized
deriving DecidableEq

/-- Modelled from the spec: section 9 turns the dynamic pattern tables into a
statically typed ordered list of tagged signature rules (variants NameMatch,
ConfigFileMatch, DirectoryMembership), each carrying its classification
output. -/
inductive SignatureRule where
  | nameMatch (pattern : String) (result : Classification)
  | configFileMatch (fileName : String) (result : Classification)
  | directoryMembership (result : Classification)
deriving DecidableEq

/-- Substring test on the underlying character lists. -/
def strContains (pat s : String) : Bool :=
  (List.range (s.data.length + 1)).any fun i => pat.data.isPrefixOf (s.data.drop i)

/-- Modelled from the spec: whether one signature rule matches a directory
observation — name signatures match the directory name against a known
pattern, config-file signatures require the signature file among the
directory's files, and membership signatures test the skills root. -/
def ruleMatches (o : Observation) : SignatureRule → Bool
  | .nameMatch pat _ => o.isDir && strContains pat o.name
  | .configFileMatch f _ => o.isDir && o.files.contains f
  | .directoryMembership _ => o.isDir && o.underSkillsRoot

/-- The classification carried by a signature rule. -/
def ruleResult : SignatureRule → Classification
  | .nameMatch _ r => r
  | .configFileMatch _ r => r
  | .directoryMembership r => r

/-- Modelled from the spec: first matching signature wins; an empty rule list
yields `unrecognized`. -/
def classifyWith (rules : List SignatureRule) (o : Observation) : Classification :=
  match rules with
  | [] => .unrecognized
  | r :: rs => if ruleMatches o r then ruleResult r else classifyWith rs o

/-- Modelled from the spec: pipeline directory-name signatures (the README
table names HYDROFLOW, YouTube Empire and Content Factory patterns). -/
def pipelineRules : List SignatureRule :=
  [ .nameMatch "HYDROFLOW" (.pipelineOf "hydroflow"),
    .nameMatch "youtube-empire" (.pipelineOf "youtube-empire"),
    .nameMatch "content-factory" (.pipelineOf "content-factory") ]

/-- Modelled from the spec: agent config-file signatures — agent config
directories hold JSON files with agent definitions. -/
def agentRules : List SignatureRule :=
  [ .configFileMatch "agent.json" (.agentOf "generic"),
    .configFileMatch "agents.json" (.agentOf "generic") ]

/-- Modelled from the spec: skill-root membership signature. -/
def skillRules : List SignatureRule :=
  [ .directoryMembership (.skillOf "general") ]

/-- Modelled from the spec: custom-module signatures for known custom module
directories. -/
def customModuleRules : List SignatureRule :=
  [ .nameMatch "custom-module" (.customModuleOf "module"),
    .nameMatch "module" (.customModuleOf "module") ]

/-- Modelled from the spec: the fixed priority order — pipeline
directory-name signatures, then agent config-file signatures, then skill-root
membership, then custom-module signatures, then unrecognized. -/
def classifierRules : List SignatureRule :=
  pipelineRules ++ agentRules ++ skillRules ++ customModuleRules

/-- Modelled from the spec: the PatternClassifier — a pure function from an
observation to a classification, first matching signature wins. -/
def patternClassifier (o : Observation) : Classification :=
  classifyWith classifierRules o

/-- Whether a classification is a pipeline classification. -/
def isPipelineClass : Classification → Bool
  | .pipelineOf _ => true
  | _ => false

/-- Whether a classification is an agent classification. -/
def isAgentClass : Classification → Bool
  | .agentOf _ => true
  | _ => false

/-- Whether a classification is a skill classification. -/
def isSkillClass : Classification → Bool
  | .skillOf _ => true
  | _ => false

/-- Whether a classification is a custom-module classification. -/
def isCustomModuleClass : Classification → Bool
  | .customModuleOf _ => true
  | _ => false

/-! ## Snapshot records and SnapshotBuilder (modelled from the spec, section 4.3,
with record fields following the interfaces in src/frontend/src/api/types.ts) -/

/-- Pipeline record, fields as in the `Pipeline` interface of
src/frontend/src/api/types.ts. -/
structure PipelineRecord where
  id : String
  name : String
  icon : String
  color : String
  directory : String
  path : String
  stages : List String
  metrics : List String
  status : String
  source : String
deriving DecidableEq

/-- Agent record, fields as in the `Agent` interface of
src/frontend/src/api/types.ts. -/
structure AgentRecord where
  name : String
  ty : String
  icon : String
  color : String
  config_path : String
  capabilities : List String
  source : String
  status : String
deriving DecidableEq

/-- Skill record, fields as in the `SkillInfo` interface of
src/frontend/src/api/types.ts. -/
structure SkillRecord where
  name : String
  path : String
  category : String
  has_readme : Bool
  description : String
  readme : Option String
deriving DecidableEq

/-- Custom-module record, fields as in the inline custom-module type of the
`DiscoveryResult` interface in src/frontend/src/api/types.ts. -/
structure CustomModuleRecord where
  name : String
  path : String
  ty : String
  status : String
deriving DecidableEq

/-- Modelled from the spec: section 3 `WorkspaceSnapshot` — immutable value
with a timestamp, the workspace root path, the four ordered record sequences
and the summary-metrics mapping. -/
structure WorkspaceSnapshot where
  detected_at : Nat
  workspace_root : String
  pipelines : List PipelineRecord
  agents : List AgentRecord
  skills : List SkillRecord
  custom_modules : List CustomModuleRecord
  metrics : List (String × Nat)
deriving DecidableEq

/-- Modelled from the spec: a workspace as the scanner sees it — the root
path, whether it exists and is readable, and the observation stream a full
walk yields. -/
structure Workspace where
  root : String
  rootExists : Bool
  rootReadable : Bool
  entries : List Observation
deriving DecidableEq

/-- Modelled from the spec: section 7 error taxonomy members that are
scan-fatal. -/
inductive ScanError where
  | workspaceUnavailable
deriving DecidableEq

/-- Modelled from the spec: the recency threshold (seconds) against which
activity status is derived; the spec treats it as configuration with a
five-minute flavor of default. -/
def activeThresholdSeconds : Nat := 300

/-- Modelled from the spec: activity status from mtime recency — modified
within the threshold means `active`, otherwise `idle`; no mtime means
`unknown`. -/
def statusOf (now : Nat) (mtime : Option Nat) : String :=
  match mtime with
  | none => "unknown"
  | some t => if now - t ≤ activeThresholdSeconds then "active" else "idle"

/-- Modelled from the spec: defensive dedup by identity key — a later element
with the same key replaces the earlier one in place. -/
def upsertBy {α κ : Type} [DecidableEq κ] (key : α → κ) : List α → α → List α
  | [], a => [a]
  | b :: bs, a => if key b = key a then a :: bs else b :: upsertBy key bs a

/-- Modelled from the spec: build one pipeline record from a directory
observation (identity is the directory path; activity status from mtime
recency; the spec gives no derivation rule for stages and metric names). -/
def mkPipelineRecord (now : Nat) (o : Observation) (kind : String) : PipelineRecord :=
  { id := o.name, name := o.name, icon := "", color := "",
    directory := o.name, path := o.path, stages := [], metrics := [],
    status := statusOf now o.mtime, source := kind }

/-- Modelled from the spec: build one agent record from an observation
(identity is the config file path). -/
def mkAgentRecord (now : Nat) (o : Observation) (ty : String) : AgentRecord :=
  { name := o.name, ty := ty, icon := "", color := "",
    config_path := o.path, capabilities := [],
    source := "config", status := statusOf now o.mtime }

/-- Modelled from the spec: build one skill record from an observation
(identity is the directory name under the skills root; README presence and a
short description from the signature files; full text lazily, absent here). -/
def mkSkillRecord (o : Observation) (category : String) : SkillRecord :=
  { name := o.name, path := o.path, category := category,
    has_readme := o.files.contains "README.md", description := "",
    readme := none }

/-- Modelled from the spec: build one custom-module record (identity is the
module name). -/
def mkCustomModuleRecord (o : Observation) (ty : String) : CustomModuleRecord :=
  { name := o.name, path := o.path, ty := ty, status := "detected" }

/-- Modelled from the spec: collect the pipeline records of an observation
stream in order, deduplicated by identity. -/
def collectPipelines (now : Nat) (entries : List Observation) : List PipelineRecord :=
  entries.foldl (fun acc o =>
    match patternClassifier o with
    | .pipelineOf k => upsertBy (fun r => r.path) acc (mkPipelineRecord now o k)
    | _ => acc) []

/-- Modelled from the spec: collect the agent records of an observation
stream in order, deduplicated by identity. -/
def collectAgents (now : Nat) (entries : List Observation) : List AgentRecord :=
  entries.foldl (fun acc o =>
    match patternClassifier o with
    | .agentOf ty => upsertBy (fun r => r.config_path) acc (mkAgentRecord now o ty)
    | _ => acc) []

/-- Modelled from the spec: collect the skill records of an observation
stream in order, deduplicated by identity. -/
def collectSkills (entries : List Observation) : List SkillRecord :=
  entries.foldl (fun acc o =>
    match patternClassifier o with
    | .skillOf c => upsertBy (fun r => r.name) acc (mkSkillRecord o c)
    | _ => acc) []

/-- Modelled from the spec: collect the custom-module records of an
observation stream in order, deduplicated by identity. -/
def collectCustomModules (entries : List Observation) : List CustomModuleRecord :=
  entries.foldl (fun acc o =>
    match patternClassifier o with
    | .customModuleOf ty => upsertBy (fun r => r.name) acc (mkCustomModuleRecord o ty)
    | _ => acc) []

/-- Modelled from the spec: the summary metrics — counts per kind and the
total. -/
def summaryMetrics (p a s c : Nat) : List (String × Nat) :=
  [("pipelines", p), ("agents", a), ("skills", s), ("custom_modules", c),
   ("total", p + a + s + c)]

/-- Modelled from the spec: SnapshotBuilder — if the root workspace path does
not exist or is not readable the build fails with `WorkspaceUnavailable`;
otherwise it consumes the observation stream, classifies, groups per kind,
computes summary metrics and emits one `WorkspaceSnapshot`. -/
def buildSnapshot (ws : Workspace) (now : Nat) : Except ScanError WorkspaceSnapshot :=
  if ws.rootExists && ws.rootReadable then
    let ps := collectPipelines now ws.entries
    let as := collectAgents now ws.entries
    let ss := collectSkills ws.entries
    let cs := collectCustomModules ws.entries
    .ok { detected_at := now, workspace_root := ws.root,
          pipelines := ps, agents := as, skills := ss, custom_modules := cs,
          metrics := summaryMetrics ps.length as.length ss.length cs.length }
  else
    .error .workspaceUnavailable

/-! ## DiscoveryCache and scan application (modelled from the spec, sections
4.4 and 4.5) -/

/-- Modelled from the spec: DiscoveryCache — holds the current snapshot;
`none` is the well-defined "not yet discovered" sentinel before the first
successful scan. -/
structure DiscoveryCache where
  current : Option WorkspaceSnapshot
deriving DecidableEq

/-- Modelled from the spec: `read()` returns the current snapshot, or the
sentinel before the first successful scan; never an error. -/
def DiscoveryCache.read (c : DiscoveryCache) : Option WorkspaceSnapshot :=
  c.current

/-- Modelled from the spec: `replace(new_snapshot)` atomically installs the
new snapshot as current. -/
def DiscoveryCache.replace (_c : DiscoveryCache) (s : WorkspaceSnapshot) : DiscoveryCache :=
  { current := some s }

/-- The cache before any scan has succeeded. -/
def emptyCache : DiscoveryCache := { current := none }

/-- Install a sequence of snapshots one after the other. -/
def installAll (c : DiscoveryCache) (snaps : List WorkspaceSnapshot) : DiscoveryCache :=
  snaps.foldl DiscoveryCache.replace c

/-- Modelled from the spec: one scan attempt applied to the cache — on
success the new snapshot is installed; on failure the cache is left
untouched and the error is reported for logging. -/
def runScan (c : DiscoveryCache) (ws : Workspace) (now : Nat) :
    DiscoveryCache × Option ScanError :=
  match buildSnapshot ws now with
  | .ok s => (c.replace s, none)
  | .error e => (c, some e)

/-! ## DiscoveryScheduler (modelled from the spec, section 4.5) -/

/-- Modelled from the spec: scheduler state — how many scans are in flight
and how many on-demand refreshes are queued behind the running scan. -/
structure SchedState where
  running : Nat
  queued : Nat
deriving DecidableEq

/-- Modelled from the spec: the events the scheduler reacts to — a timer
tick, an on-demand refresh request, and completion of the in-flight scan. -/
inductive SchedEvent where
  | timerTick
  | refreshRequest
  | scanComplete
deriving DecidableEq

/-- Modelled from the spec: scheduler transition — a tick or a refresh starts
a scan only when none is running; a refresh arriving while scanning is
coalesced into a single queued follow-up; on completion the queued follow-up
(if any) starts immediately. -/
def schedStep (s : SchedState) : SchedEvent → SchedState
  | .timerTick => if s.running = 0 then { running := 1, queued := s.queued } else s
  | .refreshRequest =>
      if s.running = 0 then { running := 1, queued := s.queued }
      else { running := s.running, queued := 1 }
  | .scanComplete =>
      if s.queued = 0 then { running := s.running - 1, queued := 0 }
      else { running := 1, queued := 0 }

/-- The scheduler's initial state: idle, nothing queued. -/
def schedInit : SchedState := { running := 0, queued := 0 }

/-- The scheduler state after a sequence of events from the initial state. -/
def schedRun (events : List SchedEvent) : SchedState :=
  events.foldl schedStep schedInit

/-! ## ChannelManager (modelled from the spec, section 4.6) -/

/-- Modelled from the spec: the subscriber queue bound. -/
def queueBound : Nat := 100

/-- Modelled from the spec: a subscriber — a connection handle id, the
channel it subscribed to, its bounded outbound queue, and whether its
transport send fails. -/
structure Subscriber where
  connId : Nat
  channel : String
  queue : List String
  sendFails : Bool
deriving DecidableEq

/-- Modelled from the spec: a subscriber can accept a delivery when its send
does not fail and its outbound queue is below the bound. -/
def healthySub (s : Subscriber) : Bool :=
  !s.sendFails && decide (s.queue.length < queueBound)

/-- Modelled from the spec: ChannelManager — the registry of live
subscribers keyed by channel name. -/
structure ChannelManager where
  subs : List Subscriber
deriving DecidableEq

/-- Modelled from the spec: best-effort delivery of one message to one
subscriber — a subscriber on another channel is untouched; a subscriber on
the channel with a full queue or a failing send is evicted (`none`);
otherwise the message is appended once at the tail of its queue. -/
def deliverTo (ch m : String) (s : Subscriber) : Option Subscriber :=
  if s.channel == ch then
    if healthySub s then some { s with queue := s.queue ++ [m] } else none
  else some s

/-- Modelled from the spec: `publish(channel_name, message)` delivers the
message to every currently subscribed connection on that channel, evicting
dead subscribers. -/
def publish (cm : ChannelManager) (ch m : String) : ChannelManager :=
  { subs := cm.subs.filterMap (deliverTo ch m) }

/-! ## Frontend fetch helpers (from the client module embedded in
src/install-and-run.sh, lines 155-180) -/

/-- An HTTP response as the fetch client observes it. -/
structure HttpResponse where
  ok : Bool
  status : Nat
  statusText : String
  jsonBody : String
deriving DecidableEq

/-- A request init record: the method and optional serialized body passed to
fetch by the helpers. -/
structure RequestInit where
  method : String
  body : Option String
deriving DecidableEq

/-- `apiFetch`: performs the request; on a non-ok response it throws an Error
whose message is the status code, a space, and the status text; otherwise it
returns the parsed JSON body. The network is a function from the request init
to the response. -/
def apiFetch (net : RequestInit → HttpResponse) (init : RequestInit) :
    Except String String :=
  let res := net init
  if !res.ok then .error (toString res.status ++ " " ++ res.statusText)
  else .ok res.jsonBody

/-- `apiPost`: delegates to `apiFetch` with method POST and a serialized
body. -/
def apiPost (net : RequestInit → HttpResponse) (body : String) :
    Except String String :=
  apiFetch net { method := "POST", body := some body }

/-- `apiPut`: delegates to `apiFetch` with method PUT and a serialized
body. -/
def apiPut (net : RequestInit → HttpResponse) (body : String) :
    Except String String :=
  apiFetch net { method := "PUT", body := some body }

/-- `apiPatch`: delegates to `apiFetch` with method PATCH and a serialized
body. -/
def apiPatch (net : RequestInit → HttpResponse) (body : String) :
    Except String String :=
  apiFetch net { method := "PATCH", body := some body }

/-- `apiDelete`: delegates to `apiFetch` with method DELETE and no body. -/
def apiDelete (net : RequestInit → HttpResponse) : Except String String :=
  apiFetch net { method := "DELETE", body := none }

/-! ## Chat send handlers (from src/unnamed/part_000 ChatBox and
src/unnamed/part_001 ChatPage) -/

/-- Message roles as used by the chat components. -/
inductive ChatRole where
  | user
  | assistant
  | system
deriving DecidableEq

/-- A chat message as kept in component state (ids and timestamps abstracted
to the content that the handlers decide on). -/
structure ChatMsg where
  role : ChatRole
  content : String
deriving DecidableEq

/-- A network effect a chat handler issues. -/
inductive NetRequest where
  | wsSend (payload : String)
  | httpPost (path : String) (payload : String)
deriving DecidableEq

/-- JavaScript `String.prototype.trim`: strip whitespace from both ends,
modelled over the underlying character list. -/
def jsTrim (s : String) : String :=
  String.mk (((s.data.dropWhile Char.isWhitespace).reverse.dropWhile
    Char.isWhitespace).reverse)

namespace ChatPage

/-- The ChatPage component state the `sendMessage` handler touches:
the message list and the input box (src/unnamed/part_001). -/
structure State where
  chatMessages : List ChatMsg
  input : String
deriving DecidableEq

/-- The parsed gateway response for the HTTP fallback path of ChatPage. -/
structure GatewayResponse where
  error : Option String
  response : String
deriving DecidableEq

/-- `sendMessage` of ChatPage (src/unnamed/part_001, lines 58-83): returns
early when the trimmed input is empty; otherwise clears the input, appends
the user message, and either sends over the open WebSocket or POSTs to
/api/chat and appends the system error or the assistant response. -/
def sendMessage (st : State) (wsOpen : Bool) (resp : GatewayResponse) :
    State × List NetRequest :=
  if jsTrim st.input = "" then (st, [])
  else
    let text := st.input
    let st1 : State :=
      { chatMessages := st.chatMessages ++ [{ role := .user, content := text }],
        input := "" }
    if wsOpen then (st1, [.wsSend text])
    else
      match resp.error with
      | some e =>
          ({ st1 with
             chatMessages := st1.chatMessages ++ [{ role := .system, content := e }] },
           [.httpPost "/api/chat" text])
      | none =>
          ({ st1 with
             chatMessages :=
               st1.chatMessages ++ [{ role := .assistant, content := resp.response }] },
           [.httpPost "/api/chat" text])

end ChatPage

namespace ChatBox

/-- The ChatBox component state the `sendMessage` handler touches: the
message list, the input box and the loading flag (src/unnamed/part_000). -/
structure State where
  messages : List ChatMsg
  input : String
  isLoading : Bool
deriving DecidableEq

/-- `sendMessage` of ChatBox (src/unnamed/part_000, lines 53-102): returns
early when the trimmed input is empty or a send is already loading;
otherwise optimistically appends the user message and an empty streaming
assistant placeholder, clears the input, sets the loading flag and issues
the chat request (streaming accumulation is driven by later transport
events, outside this handler's synchronous part). -/
def sendMessage (st : State) : State × List NetRequest :=
  if jsTrim st.input = "" || st.isLoading then (st, [])
  else
    let text := jsTrim st.input
    ({ messages := st.messages ++
         [{ role := .user, content := text }, { role := .assistant, content := "" }],
       input := "", isLoading := true },
     [.httpPost "/api/chat/stream" text])

end ChatBox

/-! ## Fixtures and projections used by the theorems below -/

/-- A pipeline record with its activity status cleared, for comparing scans
modulo activity status. -/
def PipelineRecord.clearStatus (r : PipelineRecord) : PipelineRecord :=
  { r with status := "" }

/-- An agent record with its activity status cleared, for comparing scans
modulo activity status. -/
def AgentRecord.clearStatus (r : AgentRecord) : AgentRecord :=
  { r with status := "" }

/-- The per-pipeline activity statuses of a scan outcome. -/
def pipelineStatuses (e : Except ScanError WorkspaceSnapshot) : Option (List String) :=
  e.toOption.map fun s => s.pipelines.map fun r => r.status

/-- The pipeline records of a scan outcome. -/
def pipelinesOf (e : Except ScanError WorkspaceSnapshot) : Option (List PipelineRecord) :=
  e.toOption.map fun s => s.pipelines

/-- A directory observation whose name matches both a pipeline name
signature and a custom-module name signature, last modified at time 0. -/
def exampleObservation : Observation :=
  { path := "/ws/HYDROFLOW-module", name := "HYDROFLOW-module", kind := true,
    mtime := some 0, siblings := [], files := [], underSkillsRoot := false }

/-- A readable example workspace holding that one observation. -/
def exampleWorkspace : Workspace :=
  { root := "/ws", rootExists := true, rootReadable := true,
    entries := [exampleObservation] }

/-- A workspace whose root path does not exist. -/
def unavailableWorkspace : Workspace :=
  { root := "/gone", rootExists := false, rootReadable := true, entries := [] }

/-- A small concrete snapshot used to populate the cache in witnesses. -/
def exampleSnapshot : WorkspaceSnapshot :=
  { detected_at := 7, workspace_root := "/ws", pipelines := [], agents := [],
    skills := [], custom_modules := [], metrics := summaryMetrics 0 0 0 0 }

/-- A channel manager with three subscribers of the overview channel (one of
them with a full queue) and one subscriber of the chat channel. -/
def exampleManager : ChannelManager :=
  { subs :=
      [ { connId := 1, channel := "overview", queue := [], sendFails := false },
        { connId := 2, channel := "overview", queue := List.replicate queueBound "x",
          sendFails := false },
        { connId := 3, channel := "overview", queue := ["a"], sendFails := false },
        { connId := 4, channel := "chat", queue := [], sendFails := false } ] }

/-- A network that answers every request with a 404 response. -/
def exampleNet : RequestInit → HttpResponse :=
  fun _ => { ok := false, status := 404, statusText := "Not Found", jsonBody := "" }

/-- A concrete GET-style request init. -/
def exampleInit : RequestInit := { method := "GET", body := none }

/-- A ChatPage state whose input is whitespace-only. -/
def exampleChatPageState : ChatPage.State :=
  { chatMessages := [{ role := .assistant, content := "hello" }], input := "   " }

/-- A gateway response with no error. -/
def exampleGatewayResponse : ChatPage.GatewayResponse :=
  { error := none, response := "ok" }

/-- A ChatBox state whose input is whitespace-only. -/
def exampleChatBoxState : ChatBox.State :=
  { messages := [], input := " ", isLoading := false }

/-- The pipeline record the example observation yields while active. -/
def examplePipelineActive : PipelineRecord :=
  { id := "HYDROFLOW-module"
    name := "HYDROFLOW-module"
    icon := ""
    color := ""
    directory := "HYDROFLOW-module"
    path := "/ws/HYDROFLOW-module"
    stages := []
    metrics := []
    status := "active"
    source := "hydroflow" }

/-- The same pipeline record once the mtime has fallen out of the recency
window. -/
def examplePipelineIdle : PipelineRecord :=
  { examplePipelineActive with status := "idle" }

/-- The snapshot a scan of the example workspace at time 3 builds. -/
def exampleSnapshotAt3 : WorkspaceSnapshot :=
  { detected_at := 3
    workspace_root := "/ws"
    pipelines := [examplePipelineActive]
    agents := []
    skills := []
    custom_modules := []
    metrics := summaryMetrics 1 0 0 0 }

/-- The snapshot a scan of the same unchanged example workspace at time
1000003 builds: the pipeline has gone idle. -/
def exampleSnapshotLater : WorkspaceSnapshot :=
  { detected_at := 1000003
    workspace_root := "/ws"
    pipelines := [examplePipelineIdle]
    agents := []
    skills := []
    custom_modules := []
    metrics := summaryMetrics 1 0 0 0 }

/-! ## Helper lemmas -/

theorem classifyWith_append (l₁ l₂ : List SignatureRule) (o : Observation) :
    classifyWith (l₁ ++ l₂) o =
      if l₁.any (ruleMatches o) then classifyWith l₁ o else classifyWith l₂ o := by
  induction l₁ with
  | nil => simp [classifyWith]
  | cons r rs ih =>
    by_cases h : ruleMatches o r = true
    · simp [classifyWith, h]
    · simp only [Bool.not_eq_true] at h
      simp [classifyWith, h, ih]

theorem classifyWith_mem_class (P : Classification → Bool) (l : List SignatureRule)
    (hall : ∀ r ∈ l, P (ruleResult r) = true) (o : Observation)
    (h : l.any (ruleMatches o) = true) : P (classifyWith l o) = true := by
  induction l with
  | nil => simp at h
  | cons r rs ih =>
    by_cases hm : ruleMatches o r = true
    · simp [classifyWith, hm]
      exact hall r (by simp)
    · simp only [Bool.not_eq_true] at hm
      simp [classifyWith, hm]
      apply ih (fun r hr => hall r (by simp [hr]))
      simpa [hm] using h

theorem map_upsertBy {α κ : Type} [DecidableEq κ] (key : α → κ) (f : α → α)
    (hf : ∀ x, key (f x) = key x) (l : List α) (a : α) :
    (upsertBy key l a).map f = upsertBy key (l.map f) (f a) := by
  induction l with
  | nil => simp [upsertBy]
  | cons b bs ih =>
    by_cases h : key b = key a
    · simp [upsertBy, h, hf]
    · simp [upsertBy, h, hf, ih]

theorem clearStatus_mkPipelineRecord (t : Nat) (o : Observation) (k : String) :
    (mkPipelineRecord t o k).clearStatus = (mkPipelineRecord 0 o k).clearStatus := rfl

theorem clearStatus_mkAgentRecord (t : Nat) (o : Observation) (ty : String) :
    (mkAgentRecord t o ty).clearStatus = (mkAgentRecord 0 o ty).clearStatus := rfl

theorem collectPipelines_clearStatus_aux (t₁ t₂ : Nat) (entries : List Observation)
    (acc₁ acc₂ : List PipelineRecord)
    (h : acc₁.map PipelineRecord.clearStatus = acc₂.map PipelineRecord.clearStatus) :
    (entries.foldl (fun acc o =>
        match patternClassifier o with
        | .pipelineOf k => upsertBy (fun r => r.path) acc (mkPipelineRecord t₁ o k)
        | _ => acc) acc₁).map PipelineRecord.clearStatus =
    (entries.foldl (fun acc o =>
        match patternClassifier o with
        | .pipelineOf k => upsertBy (fun r => r.path) acc (mkPipelineRecord t₂ o k)
        | _ => acc) acc₂).map PipelineRecord.clearStatus := by
  induction entries generalizing acc₁ acc₂ with
  | nil => simpa using h
  | cons o os ih =>
    apply ih
    cases hc : patternClassifier o with
    | pipelineOf k =>
      simp only [hc]
      rw [map_upsertBy (fun r : PipelineRecord => r.path) PipelineRecord.clearStatus
          (fun x => rfl),
        map_upsertBy (fun r : PipelineRecord => r.path) PipelineRecord.clearStatus
          (fun x => rfl), h,
        clearStatus_mkPipelineRecord t₁ o k, clearStatus_mkPipelineRecord t₂ o k]
    | agentOf ty => simp only [hc]; exact h
    | skillOf c => simp only [hc]; exact h
    | customModuleOf ty => simp only [hc]; exact h
    | unrecognized => simp only [hc]; exact h

theorem collectAgents_clearStatus_aux (t₁ t₂ : Nat) (entries : List Observation)
    (acc₁ acc₂ : List AgentRecord)
    (h : acc₁.map AgentRecord.clearStatus = acc₂.map AgentRecord.clearStatus) :
    (entries.foldl (fun acc o =>
        match patternClassifier o with
        | .agentOf ty => upsertBy (fun r => r.config_path) acc (mkAgentRecord t₁ o ty)
        | _ => acc) acc₁).map AgentRecord.clearStatus =
    (entries.foldl (fun acc o =>
        match patternClassifier o with
        | .agentOf ty => upsertBy (fun r => r.config_path) acc (mkAgentRecord t₂ o ty)
        | _ => acc) acc₂).map AgentRecord.clearStatus := by
  induction entries generalizing acc₁ acc₂ with
  | nil => simpa using h
  | cons o os ih =>
    apply ih
    cases hc : patternClassifier o with
    | agentOf ty =>
      simp only [hc]
      rw [map_upsertBy (fun r : AgentRecord => r.config_path) AgentRecord.clearStatus
          (fun x => rfl),
        map_upsertBy (fun r : AgentRecord => r.config_path) AgentRecord.clearStatus
          (fun x => rfl), h,
        clearStatus_mkAgentRecord t₁ o ty, clearStatus_mkAgentRecord t₂ o ty]
    | pipelineOf k => simp only [hc]; exact h
    | skillOf c => simp only [hc]; exact h
    | customModuleOf ty => simp only [hc]; exact h
    | unrecognized => simp only [hc]; exact h

theorem collectPipelines_clearStatus (t₁ t₂ : Nat) (entries : List Observation) :
    (collectPipelines t₁ entries).map PipelineRecord.clearStatus =
      (collectPipelines t₂ entries).map PipelineRecord.clearStatus :=
  collectPipelines_clearStatus_aux t₁ t₂ entries [] [] rfl

theorem collectAgents_clearStatus (t₁ t₂ : Nat) (entries : List Observation) :
    (collectAgents t₁ entries).map AgentRecord.clearStatus =
      (collectAgents t₂ entries).map AgentRecord.clearStatus :=
  collectAgents_clearStatus_aux t₁ t₂ entries [] [] rfl

theorem mkPipelineRecord_congr (t₁ t₂ : Nat) (o : Observation) (k : String)
    (h : statusOf t₁ o.mtime = statusOf t₂ o.mtime) :
    mkPipelineRecord t₁ o k = mkPipelineRecord t₂ o k := by
  unfold mkPipelineRecord
  rw [h]

theorem mkAgentRecord_congr (t₁ t₂ : Nat) (o : Observation) (ty : String)
    (h : statusOf t₁ o.mtime = statusOf t₂ o.mtime) :
    mkAgentRecord t₁ o ty = mkAgentRecord t₂ o ty := by
  unfold mkAgentRecord
  rw [h]

theorem collectPipelines_congr (t₁ t₂ : Nat)
    (hst : ∀ m : Option Nat, statusOf t₁ m = statusOf t₂ m)
    (entries : List Observation) :
    collectPipelines t₁ entries = collectPipelines t₂ entries := by
  unfold collectPipelines
  congr 1
  funext acc o
  cases hc : patternClassifier o with
  | pipelineOf k => simp only [hc, mkPipelineRecord_congr t₁ t₂ o k (hst o.mtime)]
  | agentOf ty => simp only [hc]
  | skillOf c => simp only [hc]
  | customModuleOf ty => simp only [hc]
  | unrecognized => simp only [hc]

theorem collectAgents_congr (t₁ t₂ : Nat)
    (hst : ∀ m : Option Nat, statusOf t₁ m = statusOf t₂ m)
    (entries : List Observation) :
    collectAgents t₁ entries = collectAgents t₂ entries := by
  unfold collectAgents
  congr 1
  funext acc o
  cases hc : patternClassifier o with
  | agentOf ty => simp only [hc, mkAgentRecord_congr t₁ t₂ o ty (hst o.mtime)]
  | pipelineOf k => simp only [hc]
  | skillOf c => simp only [hc]
  | customModuleOf ty => simp only [hc]
  | unrecognized => simp only [hc]

theorem installAll_read_mem (c : DiscoveryCache) (snaps : List WorkspaceSnapshot)
    (h : snaps ≠ []) : ∃ s, s ∈ snaps ∧ (installAll c snaps).read = some s := by
  induction snaps generalizing c with
  | nil => exact absurd rfl h
  | cons x xs ih =>
    cases xs with
    | nil =>
      exact ⟨x, by simp, rfl⟩
    | cons y ys =>
      obtain ⟨s, hs, hr⟩ := ih (c.replace x) (by simp)
      exact ⟨s, by simp [hs], hr⟩

theorem schedStep_preserves (s : SchedState) (e : SchedEvent)
    (h1 : s.running ≤ 1) (h2 : s.queued ≤ 1) :
    (schedStep s e).running ≤ 1 ∧ (schedStep s e).queued ≤ 1 := by
  cases e <;> simp only [schedStep] <;> split <;> simp_all

theorem refresh_saturates (k : Nat) :
    (List.replicate k SchedEvent.refreshRequest).foldl schedStep
      { running := 1, queued := 1 } = { running := 1, queued := 1 } := by
  induction k with
  | zero => rfl
  | succ n ih => simpa [List.replicate_succ, schedStep] using ih

theorem publish_other_channel (ch ch' m : String) (h : ch' ≠ ch)
    (l : List Subscriber) :
    (l.filterMap (deliverTo ch m)).filter (fun s => s.channel == ch') =
      l.filter (fun s => s.channel == ch') := by
  induction l with
  | nil => rfl
  | cons s t ih =>
    by_cases hch : s.channel = ch
    · by_cases hh : healthySub s = true
      · simp [deliverTo, beq_iff_eq, hch, hh, ih, Ne.symm h]
      · simp [deliverTo, beq_iff_eq, hch, hh, ih, Ne.symm h]
    · by_cases hch2 : s.channel = ch'
      · simp [deliverTo, beq_iff_eq, hch, hch2, ih, h]
      · simp [deliverTo, beq_iff_eq, hch, hch2, ih, h]

theorem publish_same_channel (ch m : String) (l : List Subscriber) :
    (l.filterMap (deliverTo ch m)).filter (fun s => s.channel == ch) =
      (l.filter fun s => s.channel == ch && healthySub s).map
        (fun s => { s with queue := s.queue ++ [m] }) := by
  induction l with
  | nil => rfl
  | cons s t ih =>
    by_cases hch : s.channel = ch
    · by_cases hh : healthySub s = true
      · simp [deliverTo, beq_iff_eq, hch, hh, ih]
      · simp [deliverTo, beq_iff_eq, hch, hh, ih]
    · simp [deliverTo, beq_iff_eq, hch, ih]

/-! ## Claim theorems -/

/-- C1 (counterexample): the discovery response does not carry the section-3
field names unchanged — the top level has no `workspace_root` field (the
workspace root path is serialized as `workspace`), and the agent records
carry `icon` and `color` fields that section 3 does not list for
`AgentRecord`. -/
theorem discovery_snapshot_fields_counterexample :
    "workspace_root" ∉ discoveryResultFields ∧
    discoveryResultFields ≠ specSnapshotFields ∧
    "icon" ∈ agentInterfaceFields ∧ "icon" ∉ specAgentFields ∧
    "path" ∈ customModuleInterfaceFields ∧ "path" ∉ specCustomModuleFields := by
  refine ⟨by decide, by decide, by decide, by decide, by decide, by decide⟩

/-- C1 (amended): the discovery response top level carries exactly the
section-3 snapshot fields with `workspace_root` renamed to `workspace`;
every section-3 record attribute is present as a field of the corresponding
serialized record, and the only additional fields are `id` and `directory`
on pipelines, `icon` and `color` on agents, and `path` on skills and custom
modules. -/
theorem discovery_snapshot_fields_amended :
    discoveryResultFields = specSnapshotFields.map renameWorkspaceRoot ∧
    specPipelineFields ⊆ pipelineInterfaceFields ∧
    pipelineInterfaceFields.diff specPipelineFields = ["id", "directory"] ∧
    specAgentFields ⊆ agentInterfaceFields ∧
    agentInterfaceFields.diff specAgentFields = ["icon", "color"] ∧
    specSkillFields ⊆ skillInterfaceFields ∧
    skillInterfaceFields.diff specSkillFields = ["path"] ∧
    specCustomModuleFields ⊆ customModuleInterfaceFields ∧
    customModuleInterfaceFields.diff specCustomModuleFields = ["path"] := by
  refine ⟨by decide, by decide, by decide, by decide, by decide, by decide,
    by decide, by decide, by decide⟩

/-- C2: when the root workspace path does not exist or is not readable, the
snapshot build fails with `WorkspaceUnavailable` and applying the scan to the
cache leaves the previously installed snapshot (if any) unchanged. -/
theorem failed_scan_retains_prior_snapshot (c : DiscoveryCache) (ws : Workspace)
    (now : Nat) (h : ws.rootExists = false ∨ ws.rootReadable = false) :
    buildSnapshot ws now = .error .workspaceUnavailable ∧
    runScan c ws now = (c, some .workspaceUnavailable) := by
  have hcond : (ws.rootExists && ws.rootReadable) = false := by
    rcases h with h | h <;> simp [h]
  constructor
  · simp [buildSnapshot, hcond]
  · simp [runScan, buildSnapshot, hcond]

/-- C2 (witness): a cache already holding a snapshot survives a scan of a
workspace whose root is missing. -/
theorem failed_scan_retains_prior_snapshot_witness :
    buildSnapshot unavailableWorkspace 5 = .error .workspaceUnavailable ∧
    runScan (emptyCache.replace exampleSnapshot) unavailableWorkspace 5 =
      (emptyCache.replace exampleSnapshot, some .workspaceUnavailable) :=
  failed_scan_retains_prior_snapshot (emptyCache.replace exampleSnapshot)
    unavailableWorkspace 5 (Or.inl rfl)

/-- C3: before the first successful scan `read()` returns the well-defined
"not yet discovered" sentinel, never an error; after any number of
`replace` operations starting from the empty cache, `read()` returns exactly
one of the fully installed snapshots. -/
theorem cache_read_sentinel_and_atomic (snaps : List WorkspaceSnapshot) :
    emptyCache.read = none ∧
    (snaps = [] → (installAll emptyCache snaps).read = none) ∧
    (snaps ≠ [] → ∃ s, s ∈ snaps ∧ (installAll emptyCache snaps).read = some s) := by
  refine ⟨rfl, ?_, ?_⟩
  · intro h
    subst h
    rfl
  · intro h
    exact installAll_read_mem emptyCache snaps h

/-- C3 (witness): installing one concrete snapshot makes `read()` return one
of the installed snapshots; the empty cache reads as the sentinel. -/
theorem cache_read_sentinel_and_atomic_witness :
    emptyCache.read = none ∧
    (∃ s, s ∈ [exampleSnapshot] ∧ (installAll emptyCache [exampleSnapshot]).read = some s) :=
  ⟨(cache_read_sentinel_and_atomic [exampleSnapshot]).1,
   (cache_read_sentinel_and_atomic [exampleSnapshot]).2.2 (by simp)⟩

/-- C4: in every state the scheduler can reach from idle, at most one scan
is running system-wide and at most one follow-up is queued; moreover any
positive number of refresh requests issued while one scan is in flight
queues exactly one additional scan. -/
theorem scheduler_at_most_one_scan (events : List SchedEvent) (k : Nat) :
    (schedRun events).running ≤ 1 ∧ (schedRun events).queued ≤ 1 ∧
    (List.replicate (k + 1) SchedEvent.refreshRequest).foldl schedStep
        { running := 1, queued := 0 } = { running := 1, queued := 1 } := by
  have hinv : ∀ (evs : List SchedEvent) (s : SchedState), s.running ≤ 1 → s.queued ≤ 1 →
      (evs.foldl schedStep s).running ≤ 1 ∧ (evs.foldl schedStep s).queued ≤ 1 := by
    intro evs
    induction evs with
    | nil => intro s h1 h2; exact ⟨h1, h2⟩
    | cons e es ih =>
      intro s h1 h2
      obtain ⟨p1, p2⟩ := schedStep_preserves s e h1 h2
      exact ih (schedStep s e) p1 p2
  obtain ⟨i1, i2⟩ := hinv events schedInit (by simp [schedInit]) (by simp [schedInit])
  refine ⟨i1, i2, ?_⟩
  rw [List.replicate_succ, List.foldl_cons]
  have hstep : schedStep { running := 1, queued := 0 } .refreshRequest =
      { running := 1, queued := 1 } := rfl
  rw [hstep, refresh_saturates]

theorem classifyWith_no_match (l : List SignatureRule) (o : Observation)
    (h : l.any (ruleMatches o) = false) : classifyWith l o = .unrecognized := by
  induction l with
  | nil => rfl
  | cons r rs ih =>
    simp only [List.any_cons, Bool.or_eq_false_iff] at h
    simp [classifyWith, h.1, ih h.2]

/-- C5: the classifier applies its signatures as an ordered list with first
match wins, in the fixed priority order pipeline name signatures, then agent
config-file signatures, then skill-root membership, then custom-module
signatures, then unrecognized; in particular an observation matching both a
pipeline signature and a custom-module signature classifies as a pipeline. -/
theorem classifier_priority_first_match (o : Observation) :
    (pipelineRules.any (ruleMatches o) = true →
      isPipelineClass (patternClassifier o) = true) ∧
    (pipelineRules.any (ruleMatches o) = false →
      agentRules.any (ruleMatches o) = true →
      isAgentClass (patternClassifier o) = true) ∧
    (pipelineRules.any (ruleMatches o) = false →
      agentRules.any (ruleMatches o) = false →
      skillRules.any (ruleMatches o) = true →
      isSkillClass (patternClassifier o) = true) ∧
    (pipelineRules.any (ruleMatches o) = false →
      agentRules.any (ruleMatches o) = false →
      skillRules.any (ruleMatches o) = false →
      customModuleRules.any (ruleMatches o) = true →
      isCustomModuleClass (patternClassifier o) = true) ∧
    (pipelineRules.any (ruleMatches o) = false →
      agentRules.any (ruleMatches o) = false →
      skillRules.any (ruleMatches o) = false →
      customModuleRules.any (ruleMatches o) = false →
      patternClassifier o = .unrecognized) ∧
    (pipelineRules.any (ruleMatches o) = true →
      customModuleRules.any (ruleMatches o) = true →
      isPipelineClass (patternClassifier o) = true) := by
  have hmaster : patternClassifier o =
      if pipelineRules.any (ruleMatches o) then classifyWith pipelineRules o
      else if agentRules.any (ruleMatches o) then classifyWith agentRules o
      else if skillRules.any (ruleMatches o) then classifyWith skillRules o
      else classifyWith customModuleRules o := by
    unfold patternClassifier classifierRules
    rw [classifyWith_append, classifyWith_append, classifyWith_append]
    by_cases hp : pipelineRules.any (ruleMatches o) = true <;>
      by_cases ha : agentRules.any (ruleMatches o) = true <;>
        by_cases hs : skillRules.any (ruleMatches o) = true <;>
          simp [hp, ha, hs, List.any_append]
  refine ⟨?_, ?_, ?_, ?_, ?_, ?_⟩
  · intro hp
    rw [hmaster]
    simp only [hp, if_true]
    exact classifyWith_mem_class isPipelineClass pipelineRules (by decide) o hp
  · intro hp ha
    rw [hmaster]
    simp only [hp, ha, Bool.false_eq_true, if_false, if_true]
    exact classifyWith_mem_class isAgentClass agentRules (by decide) o ha
  · intro hp ha hs
    rw [hmaster]
    simp only [hp, ha, hs, Bool.false_eq_true, if_false, if_true]
    exact classifyWith_mem_class isSkillClass skillRules (by decide) o hs
  · intro hp ha hs hc
    rw [hmaster]
    simp only [hp, ha, hs, Bool.false_eq_true, if_false]
    exact classifyWith_mem_class isCustomModuleClass customModuleRules (by decide) o hc
  · intro hp ha hs hc
    rw [hmaster]
    simp only [hp, ha, hs, Bool.false_eq_true, if_false]
    exact classifyWith_no_match customModuleRules o hc
  · intro hp _hc
    rw [hmaster]
    simp only [hp, if_true]
    exact classifyWith_mem_class isPipelineClass pipelineRules (by decide) o hp

/-- C5 (witness): the example directory name matches both a pipeline
signature and a custom-module signature, and the classifier returns a
pipeline classification. -/
theorem classifier_priority_first_match_witness :
    pipelineRules.any (ruleMatches exampleObservation) = true ∧
    customModuleRules.any (ruleMatches exampleObservation) = true ∧
    isPipelineClass (patternClassifier exampleObservation) = true :=
  ⟨by decide, by decide,
   (classifier_priority_first_match exampleObservation).2.2.2.2.2 (by decide) (by decide)⟩

/-- C6: the classifier is a pure function of the observation — two
invocations on observations that agree on every component return the same
classification, with no dependence on hidden state. -/
theorem classifier_pure_deterministic (o₁ o₂ : Observation)
    (hp : o₁.path = o₂.path) (hn : o₁.name = o₂.name) (hk : o₁.kind = o₂.kind)
    (hm : o₁.mtime = o₂.mtime) (hs : o₁.siblings = o₂.siblings)
    (hf : o₁.files = o₂.files) (hr : o₁.underSkillsRoot = o₂.underSkillsRoot) :
    patternClassifier o₁ = patternClassifier o₂ := by
  cases o₁
  cases o₂
  cases hp
  cases hn
  cases hk
  cases hm
  cases hs
  cases hf
  cases hr
  rfl

/-- C6 (witness): both invocations of the classifier on the example
observation agree. -/
theorem classifier_pure_deterministic_witness :
    patternClassifier exampleObservation = patternClassifier exampleObservation :=
  classifier_pure_deterministic exampleObservation exampleObservation
    rfl rfl rfl rfl rfl rfl rfl

/-- C7: a publish delivers the message exactly once to each currently
subscribed healthy connection of the channel, appended at the tail of its
queue (FIFO relative to earlier publishes); subscribers of any other channel
are untouched; a subscriber with a full queue or a failing send is evicted
without affecting delivery to the channel's other subscribers. -/
theorem publish_exactly_once_per_subscriber (cm : ChannelManager)
    (ch ch' m : String) (h : ch' ≠ ch) :
    (publish cm ch m).subs.filter (fun s => s.channel == ch') =
      cm.subs.filter (fun s => s.channel == ch') ∧
    (publish cm ch m).subs.filter (fun s => s.channel == ch) =
      (cm.subs.filter fun s => s.channel == ch && healthySub s).map
        (fun s => { s with queue := s.queue ++ [m] }) :=
  ⟨publish_other_channel ch ch' m h cm.subs, publish_same_channel ch m cm.subs⟩

/-- C7 (witness): publishing one message on the overview channel of the
example manager delivers it once to each healthy overview subscriber, evicts
the full one, and leaves the chat subscriber untouched. -/
theorem publish_exactly_once_per_subscriber_witness :
    (publish exampleManager "overview" "msg").subs.filter
        (fun s => s.channel == "chat") =
      exampleManager.subs.filter (fun s => s.channel == "chat") ∧
    (publish exampleManager "overview" "msg").subs.filter
        (fun s => s.channel == "overview") =
      (exampleManager.subs.filter
          fun s => s.channel == "overview" && healthySub s).map
        (fun s => { s with queue := s.queue ++ ["msg"] }) :=
  publish_exactly_once_per_subscriber exampleManager "overview" "chat" "msg"
    (by decide)

/-- C8 (counterexample): scanning the unchanged example workspace at time 0
and again at time 1000000 yields different pipeline record sets — the
activity status flips from active to idle — so the record sets do not only
differ in `detected_at`. -/
theorem scan_idempotence_counterexample :
    pipelineStatuses (buildSnapshot exampleWorkspace 0) = some ["active"] ∧
    pipelineStatuses (buildSnapshot exampleWorkspace 1000000) = some ["idle"] ∧
    pipelinesOf (buildSnapshot exampleWorkspace 0) ≠
      pipelinesOf (buildSnapshot exampleWorkspace 1000000) := by
  refine ⟨by decide, by decide, by decide⟩

/-- C8 (amended): two successful scans of an unchanged workspace yield
snapshots whose record sets agree on everything except possibly the
mtime-derived activity statuses of pipelines and agents (and the
`detected_at` timestamps); whenever the two scan times classify every mtime
identically — in particular for back-to-back scans in the same recency
window — the record sets are fully identical. -/
theorem scan_idempotence_amended (ws : Workspace) (t₁ t₂ : Nat)
    (s₁ s₂ : WorkspaceSnapshot)
    (h₁ : buildSnapshot ws t₁ = .ok s₁) (h₂ : buildSnapshot ws t₂ = .ok s₂) :
    s₁.workspace_root = s₂.workspace_root ∧
    s₁.pipelines.map PipelineRecord.clearStatus =
      s₂.pipelines.map PipelineRecord.clearStatus ∧
    s₁.agents.map AgentRecord.clearStatus = s₂.agents.map AgentRecord.clearStatus ∧
    s₁.skills = s₂.skills ∧
    s₁.custom_modules = s₂.custom_modules ∧
    s₁.metrics = s₂.metrics ∧
    ((∀ m : Option Nat, statusOf t₁ m = statusOf t₂ m) →
      s₁.pipelines = s₂.pipelines ∧ s₁.agents = s₂.agents) := by
  by_cases hc : (ws.rootExists && ws.rootReadable) = true
  · unfold buildSnapshot at h₁ h₂
    rw [if_pos hc] at h₁ h₂
    injection h₁ with h₁
    injection h₂ with h₂
    subst h₁
    subst h₂
    have hlenp : (collectPipelines t₁ ws.entries).length =
        (collectPipelines t₂ ws.entries).length := by
      have := congrArg List.length (collectPipelines_clearStatus t₁ t₂ ws.entries)
      simpa using this
    have hlena : (collectAgents t₁ ws.entries).length =
        (collectAgents t₂ ws.entries).length := by
      have := congrArg List.length (collectAgents_clearStatus t₁ t₂ ws.entries)
      simpa using this
    refine ⟨rfl, collectPipelines_clearStatus t₁ t₂ ws.entries,
      collectAgents_clearStatus t₁ t₂ ws.entries, rfl, rfl, ?_, ?_⟩
    · simp only [hlenp, hlena]
    · intro hst
      exact ⟨collectPipelines_congr t₁ t₂ hst ws.entries,
        collectAgents_congr t₁ t₂ hst ws.entries⟩
  · exfalso
    unfold buildSnapshot at h₁
    rw [if_neg hc] at h₁
    exact Except.noConfusion h₁

/-- C8 (amended, witness): the example workspace scanned at times 3 and
1000003 gives concrete snapshots that agree on all record fields except the
pipeline activity status. -/
theorem scan_idempotence_amended_witness :
    buildSnapshot exampleWorkspace 3 = .ok exampleSnapshotAt3 ∧
    buildSnapshot exampleWorkspace 1000003 = .ok exampleSnapshotLater ∧
    exampleSnapshotAt3.pipelines.map PipelineRecord.clearStatus =
      exampleSnapshotLater.pipelines.map PipelineRecord.clearStatus ∧
    exampleSnapshotAt3.metrics = exampleSnapshotLater.metrics :=
  ⟨rfl, rfl,
   (scan_idempotence_amended exampleWorkspace 3 1000003 exampleSnapshotAt3
     exampleSnapshotLater rfl rfl).2.1,
   (scan_idempotence_amended exampleWorkspace 3 1000003 exampleSnapshotAt3
     exampleSnapshotLater rfl rfl).2.2.2.2.2.1⟩

/-- C9: on a non-ok response `apiFetch` throws an Error whose message is the
status code followed by the status text and never returns a parsed body; on
an ok response it returns the parsed body; and the `apiPost`, `apiPut`,
`apiPatch` and `apiDelete` helpers all delegate to `apiFetch`, so every
helper either returns the parsed JSON of an ok response or throws. -/
theorem apiFetch_error_contract (net : RequestInit → HttpResponse)
    (init : RequestInit) (body : String) :
    ((net init).ok = false →
      apiFetch net init =
        .error (toString (net init).status ++ " " ++ (net init).statusText)) ∧
    ((net init).ok = true → apiFetch net init = .ok (net init).jsonBody) ∧
    apiPost net body = apiFetch net { method := "POST", body := some body } ∧
    apiPut net body = apiFetch net { method := "PUT", body := some body } ∧
    apiPatch net body = apiFetch net { method := "PATCH", body := some body } ∧
    apiDelete net = apiFetch net { method := "DELETE", body := none } := by
  refine ⟨?_, ?_, rfl, rfl, rfl, rfl⟩
  · intro h
    simp [apiFetch, h]
  · intro h
    simp [apiFetch, h]

/-- C9 (witness): against a network that always answers 404 Not Found, a
fetch yields the thrown error message and no parsed body. -/
theorem apiFetch_error_contract_witness :
    (exampleNet exampleInit).ok = false ∧
    apiFetch exampleNet exampleInit = .error "404 Not Found" := by
  have h := (apiFetch_error_contract exampleNet exampleInit "b").1 rfl
  rw [h]
  exact ⟨rfl, rfl⟩

/-- C10: with an input that trims to the empty string, both chat
`sendMessage` handlers are a no-op — no chat message is appended, no network
request is issued, and the component state is returned unchanged. -/
theorem chat_send_blank_noop (ps : ChatPage.State) (wsOpen : Bool)
    (resp : ChatPage.GatewayResponse) (bs : ChatBox.State)
    (h₁ : jsTrim ps.input = "") (h₂ : jsTrim bs.input = "") :
    ChatPage.sendMessage ps wsOpen resp = (ps, []) ∧
    ChatBox.sendMessage bs = (bs, []) := by
  constructor
  · simp [ChatPage.sendMessage, h₁]
  · simp [ChatBox.sendMessage, h₂]

/-- C10 (witness): whitespace-only inputs leave both chat components
unchanged and issue no request. -/
theorem chat_send_blank_noop_witness :
    ChatPage.sendMessage exampleChatPageState true exampleGatewayResponse =
      (exampleChatPageState, []) ∧
    ChatBox.sendMessage exampleChatBoxState = (exampleChatBoxState, []) :=
  chat_send_blank_noop exampleChatPageState true exampleGatewayResponse
    exampleChatBoxState (by decide) (by decide)
